import Mathlib

/-!
Verification development for the MYMONEY personal finance tracker.

The definitions below are a shallow embedding of the repository's
ledger-consistency layer:
* `src/supabase/services.ts` (entity services against the remote store), and
* `src/context/DataContext.tsx` (client state cache, balance derivation,
  guarded deletes and cache-maintenance operations).

The remote store is modelled as an explicit `Store` record of row lists;
each service operation becomes a pure state transformation (fallible
operations return `Except`).  Monetary amounts are modelled as `Int`
(integer minor units, as the spec's design notes recommend); timestamps as
`Nat`; generated row ids are passed as explicit parameters.
-/

namespace MyMoney

/-- Transaction type, from src's TransactionType: income or expense. -/
inductive TxType
  | income
  | expense
deriving DecidableEq, Repr

/-- Payment method, from src's PaymentMethod: cash or card. -/
inductive PaymentMethod
  | cash
  | card
deriving DecidableEq, Repr

/-- Credit entry status, from src's CreditStatus. -/
inductive CreditStatus
  | active
  | partially_returned
  | fully_returned
deriving DecidableEq, Repr

/-- Credit history item type: the initial "given" item or a "returned" repayment. -/
inductive HistType
  | given
  | returned
deriving DecidableEq, Repr

/-- A row of the transactions table / a domain Transaction
(services.ts maps them 1:1; absent columns are `none`). -/
structure Transaction where
  id : String
  type : TxType
  category : String
  amount : Int
  date : Nat
  note : String
  paymentMethod : Option PaymentMethod
  cardId : Option String
  creditId : Option String
  creditHistoryId : Option String
  creditReceivedId : Option String
  creditReceivedHistoryId : Option String
deriving DecidableEq, Repr

/-- A category row. -/
structure Category where
  id : String
  name : String
  type : TxType
deriving DecidableEq, Repr

/-- A card row (CardDetails). -/
structure CardDetails where
  id : String
  cardName : String
  cardNumber : String
  expiryDate : String
  cardType : String
deriving DecidableEq, Repr

/-- A row of the credit_history table (keyed to its entry by creditId). -/
structure CreditHistoryRow where
  id : String
  creditId : String
  date : Nat
  amount : Int
  type : HistType
  paymentMethod : PaymentMethod
  cardId : Option String
  note : Option String
deriving DecidableEq, Repr

/-- A row of the credit_entries table (money lent). -/
structure CreditEntryRow where
  id : String
  personName : String
  amount : Int
  dueDate : Nat
  givenDate : Nat
  returnedAmount : Int
  status : CreditStatus
  initialPaymentMethod : PaymentMethod
  initialCardId : Option String
  initialNote : Option String
deriving DecidableEq, Repr

/-- A row of the credit_received table (money borrowed). -/
structure CreditReceivedRow where
  id : String
  personName : String
  amount : Int
  returnDate : Nat
  receivedDate : Nat
  returnedAmount : Int
  status : CreditStatus
  initialPaymentMethod : PaymentMethod
  initialCardId : Option String
  initialNote : Option String
deriving DecidableEq, Repr

/-- The remote store: one list of rows per table (scoped to the single user). -/
structure Store where
  transactions : List Transaction
  categories : List Category
  cards : List CardDetails
  creditEntries : List CreditEntryRow
  creditHistory : List CreditHistoryRow
  creditReceived : List CreditReceivedRow
deriving DecidableEq, Repr

/-- A domain CreditHistoryItem as returned by creditService.getCreditHistory. -/
structure CreditHistoryItem where
  id : String
  date : Nat
  amount : Int
  type : HistType
  paymentMethod : PaymentMethod
  cardId : Option String
  note : Option String
deriving DecidableEq, Repr

/-- A domain CreditEntry as returned by creditService.getCreditEntries
(entry row plus its history). -/
structure CreditEntry where
  id : String
  personName : String
  amount : Int
  dueDate : Nat
  givenDate : Nat
  returnedAmount : Int
  status : CreditStatus
  history : List CreditHistoryItem
  initialPaymentMethod : PaymentMethod
  initialCardId : Option String
  initialNote : Option String
deriving DecidableEq, Repr

/-! ## Balance derivation (DataContext.tsx, the balances useMemo, lines 153-173)

The JS balance map is modelled as a function from payment-source key to
`Option Int`: `none` is a key absent from the object (JS undefined). -/

/-- An in-place `balanceMap[k] += a` on a key already present
(absent keys stay absent). -/
def updAdd (m : String → Option Int) (k : String) (a : Int) : String → Option Int :=
  fun j => if j = k then (m k).map (fun v => v + a) else m j

/-- An in-place `balanceMap[k] -= a` on a key already present. -/
def updSub (m : String → Option Int) (k : String) (a : Int) : String → Option Int :=
  fun j => if j = k then (m k).map (fun v => v - a) else m j

/-- The initial balance map: cash at 0, then every known card id at 0
(mirrors `{ cash: 0 }` followed by the cards.forEach initialisation). -/
def initBalances (cards : List CardDetails) : String → Option Int :=
  cards.foldl (fun m c => fun j => if j = c.id then some 0 else m j)
    (fun j => if j = "cash" then some 0 else none)

/-- One step of the transactions.forEach fold in the balances useMemo. -/
def applyTx (m : String → Option Int) (t : Transaction) : String → Option Int :=
  match t.type with
  | TxType.income =>
    match t.cardId with
    | some cid => if (m cid).isSome then updAdd m cid t.amount else updAdd m "cash" t.amount
    | none => updAdd m "cash" t.amount
  | TxType.expense =>
    match t.cardId with
    | some cid =>
      if (m cid).isSome then updSub m cid t.amount
      else if t.paymentMethod = some PaymentMethod.cash then updSub m "cash" t.amount
      else m
    | none =>
      if t.paymentMethod = some PaymentMethod.cash then updSub m "cash" t.amount
      else m

/-- The balances projection: fold applyTx over the transactions, starting
from the initial map of the known cards. -/
def balancesMap (cards : List CardDetails) (txs : List Transaction) : String → Option Int :=
  txs.foldl applyTx (initBalances cards)

/-! ## Credit service (services.ts, creditService) -/

/-- Predicate picking the history rows of one credit entry. -/
def histOf (creditId : String) (h : CreditHistoryRow) : Bool :=
  decide (h.creditId = creditId)

/-- Row-to-domain mapping used by creditService.getCreditHistory. -/
def toHistoryItem (h : CreditHistoryRow) : CreditHistoryItem :=
  { id := h.id, date := h.date, amount := h.amount, type := h.type,
    paymentMethod := h.paymentMethod, cardId := h.cardId, note := h.note }

/-- creditService.getCreditHistory: select the entry's history rows,
ordered by date descending. -/
def getCreditHistory (st : Store) (creditId : String) : List CreditHistoryItem :=
  (List.insertionSort (fun a b => b.date ≤ a.date)
      (st.creditHistory.filter (histOf creditId))).map toHistoryItem

/-- creditService.getCreditEntries: entry rows ordered by given_date
descending, each carrying its history. -/
def getCreditEntries (st : Store) : List CreditEntry :=
  (List.insertionSort (fun a b => b.givenDate ≤ a.givenDate) st.creditEntries).map
    (fun e =>
      { id := e.id, personName := e.personName, amount := e.amount,
        dueDate := e.dueDate, givenDate := e.givenDate,
        returnedAmount := e.returnedAmount, status := e.status,
        history := getCreditHistory st e.id,
        initialPaymentMethod := e.initialPaymentMethod,
        initialCardId := e.initialCardId, initialNote := e.initialNote })

/-- The sum of the returned-type history amounts of one entry, over the
credit_history table. -/
def returnedSum (hist : List CreditHistoryRow) (creditId : String) : Int :=
  ((hist.filter (fun h => decide (h.creditId = creditId ∧ h.type = HistType.returned))).map
      (fun h => h.amount)).sum

/-- Modelled from the spec: the store-side recomputation of the derived
columns returned_amount and status lives in the repository's schema.sql,
which is referenced by the included SQL policy file but absent from the
source tree.  Per the spec: returned_amount equals the sum of the entry's
returned-type history amounts, and status is fully_returned when
returned_amount is at least amount, else partially_returned when
returned_amount is positive, else active. -/
def recomputeEntry (hist : List CreditHistoryRow) (e : CreditEntryRow) : CreditEntryRow :=
  let ra := returnedSum hist e.id
  { e with
    returnedAmount := ra,
    status :=
      if e.amount ≤ ra then CreditStatus.fully_returned
      else if 0 < ra then CreditStatus.partially_returned
      else CreditStatus.active }

/-- creditService.addCreditReturn: insert a returned history row, look up
the entry's person name, insert the mirrored income transaction; the
store-side trigger (recomputeEntry, modelled from the spec) refreshes the
affected entry's derived columns. -/
def addCreditReturn (st : Store) (creditId : String) (amount : Int)
    (paymentMethod : PaymentMethod) (cardId : Option String) (note : Option String)
    (now : Nat) (historyId txId : String) : Except String Store :=
  let hrow : CreditHistoryRow :=
    { id := historyId, creditId := creditId, date := now, amount := amount,
      type := HistType.returned, paymentMethod := paymentMethod,
      cardId := cardId, note := note }
  let hist1 := st.creditHistory ++ [hrow]
  let entries1 := st.creditEntries.map
    (fun e => if e.id = creditId then recomputeEntry hist1 e else e)
  match st.creditEntries.find? (fun e => decide (e.id = creditId)) with
  | none => Except.error "credit entry not found"
  | some entry =>
    let tx : Transaction :=
      { id := txId, type := TxType.income, category := "Credit Return",
        amount := amount, date := now,
        note := "Credit return from " ++ entry.personName,
        paymentMethod := some paymentMethod, cardId := cardId,
        creditId := some creditId, creditHistoryId := some historyId,
        creditReceivedId := none, creditReceivedHistoryId := none }
    Except.ok
      { st with
        creditHistory := hist1, creditEntries := entries1,
        transactions := st.transactions ++ [tx] }

/-- creditService.createCreditEntry: insert the entry row (derived columns
start at their schema defaults, returned_amount 0 and status active, per
the spec's step 1), insert the initial given history item, and insert the
mirrored expense transaction. -/
def createCreditEntry (st : Store) (personName : String) (amount : Int)
    (dueDate : Nat) (initialPaymentMethod : PaymentMethod)
    (initialCardId : Option String) (initialNote : Option String)
    (now : Nat) (entryId historyId txId : String) : Store :=
  let erow : CreditEntryRow :=
    { id := entryId, personName := personName, amount := amount,
      dueDate := dueDate, givenDate := now, returnedAmount := 0,
      status := CreditStatus.active,
      initialPaymentMethod := initialPaymentMethod,
      initialCardId := initialCardId, initialNote := initialNote }
  let hrow : CreditHistoryRow :=
    { id := historyId, creditId := entryId, date := now, amount := amount,
      type := HistType.given, paymentMethod := initialPaymentMethod,
      cardId := initialCardId, note := initialNote }
  let tx : Transaction :=
    { id := txId, type := TxType.expense, category := "Credit",
      amount := amount, date := now,
      note := "Credit given to " ++ personName,
      paymentMethod := some initialPaymentMethod, cardId := initialCardId,
      creditId := some entryId, creditHistoryId := some historyId,
      creditReceivedId := none, creditReceivedHistoryId := none }
  { st with
    creditEntries := st.creditEntries ++ [erow],
    creditHistory := st.creditHistory ++ [hrow],
    transactions := st.transactions ++ [tx] }

/-- creditService.deleteCreditEntry: delete the linked transactions, then
the history rows, then the entry row itself. -/
def deleteCreditEntry (st : Store) (creditId : String) : Store :=
  let st1 :=
    { st with transactions :=
        st.transactions.filter (fun t => decide (¬ t.creditId = some creditId)) }
  let st2 :=
    { st1 with creditHistory :=
        st1.creditHistory.filter (fun h => decide (¬ h.creditId = creditId)) }
  { st2 with creditEntries :=
      st2.creditEntries.filter (fun e => decide (¬ e.id = creditId)) }

/-- creditReceivedService.createCreditReceivedEntry: insert the entry row
and the mirrored income transaction.  No history row is written at
creation, and the transaction carries no payment_method and no history
back-reference (only card_id and credit_received_id are set). -/
def createCreditReceivedEntry (st : Store) (personName : String) (amount : Int)
    (returnDate : Nat) (initialPaymentMethod : PaymentMethod)
    (initialCardId : Option String) (initialNote : Option String)
    (now : Nat) (entryId txId : String) : Store :=
  let erow : CreditReceivedRow :=
    { id := entryId, personName := personName, amount := amount,
      returnDate := returnDate, receivedDate := now, returnedAmount := 0,
      status := CreditStatus.active,
      initialPaymentMethod := initialPaymentMethod,
      initialCardId := initialCardId, initialNote := initialNote }
  let tx : Transaction :=
    { id := txId, type := TxType.income, category := "Credit Received",
      amount := amount, date := now,
      note := "Credit received from " ++ personName,
      paymentMethod := none, cardId := initialCardId,
      creditId := none, creditHistoryId := none,
      creditReceivedId := some entryId, creditReceivedHistoryId := none }
  { st with
    creditReceived := st.creditReceived ++ [erow],
    transactions := st.transactions ++ [tx] }

/-! ## Card service and the guarded card delete
(services.ts cardService, DataContext.tsx deleteCard)

The two store queries inside isCardInUse can fail; the flags txFail and
creditFail inject those failures.  The source checks the error of the
first query and throws, but silently ignores the error of the second
query (it destructures only data, so a failure reads as an empty result). -/

/-- cardService.isCardInUse: any transaction with this card_id, else any
credit entry with this initial_card_id.  A failing first query throws; a
failing second query is ignored and reads as "not in use". -/
def isCardInUse (st : Store) (cardId : String) (txFail creditFail : Bool) :
    Except String Bool :=
  if txFail then Except.error "store error"
  else if st.transactions.any (fun t => decide (t.cardId = some cardId)) then
    Except.ok true
  else
    let creditData : Option (List CreditEntryRow) :=
      if creditFail then none
      else some ((st.creditEntries.filter (fun e => decide (e.initialCardId = some cardId))).take 1)
    Except.ok
      (match creditData with
       | none => false
       | some l => decide (0 < l.length))

/-- DataContext.deleteCard: run the in-use pre-check, reject when in use,
otherwise delete the card row. -/
def deleteCard (st : Store) (cardId : String) (txFail creditFail : Bool) :
    Except String Store :=
  match isCardInUse st cardId txFail creditFail with
  | Except.error e => Except.error e
  | Except.ok true =>
    Except.error "Cannot delete card. It is linked to one or more transactions."
  | Except.ok false =>
    Except.ok { st with cards := st.cards.filter (fun c => decide (¬ c.id = cardId)) }

/-! ## Category service (services.ts categoryService, DataContext.tsx) -/

/-- categoryService.getCategory: a single-row select by id; any error or a
row count other than one reads as null. -/
def getCategory (st : Store) (categoryId : String) : Option Category :=
  match st.categories.filter (fun c => decide (c.id = categoryId)) with
  | [c] => some c
  | _ => none

/-- categoryService.deleteCategory: look the category up, delete the
transactions carrying its name, then delete the category row. -/
def deleteCategory (st : Store) (categoryId : String) : Store :=
  let st1 :=
    match getCategory st categoryId with
    | some c =>
      { st with transactions :=
          st.transactions.filter (fun t => decide (¬ t.category = c.name)) }
    | none => st
  { st1 with categories :=
      st1.categories.filter (fun c => decide (¬ c.id = categoryId)) }

/-- DataContext.addCategory: reject when a cached category matches the new
name case-insensitively with the same type, else insert and append to the
cache. -/
def addCategory (cats : List Category) (newName : String) (newType : TxType)
    (newId : String) : Except String (List Category) :=
  let dup := cats.any
    (fun c => decide (c.name.toLower = newName.toLower ∧ c.type = newType))
  if dup then Except.error "Category already exists"
  else Except.ok (cats ++ [{ id := newId, name := newName, type := newType }])

/-! ## Transaction cache maintenance (DataContext.tsx) -/

/-- The sort applied by addTransaction and updateTransaction: descending
by date (the JS comparator dateB minus dateA). -/
def sortTransactionsDesc (l : List Transaction) : List Transaction :=
  List.insertionSort (fun a b => b.date ≤ a.date) l

/-- DataContext.addTransaction cache step: prepend the created transaction
and re-sort descending by date. -/
def addTransactionCache (txs : List Transaction) (t : Transaction) : List Transaction :=
  sortTransactionsDesc (t :: txs)

/-- DataContext.updateTransaction cache step: replace the matching
transaction and re-sort descending by date. -/
def updateTransactionCache (txs : List Transaction) (t : Transaction) : List Transaction :=
  sortTransactionsDesc (txs.map (fun x => if x.id = t.id then t else x))

/-- The single bucket a transaction is attributed to, together with its
signed contribution: the same case split as applyTx, with none for the
silently dropped expenses. -/
def txTarget (m : String → Option Int) (t : Transaction) : Option (String × Int) :=
  match t.type with
  | TxType.income =>
    match t.cardId with
    | some cid =>
      if (m cid).isSome then some (cid, t.amount) else some ("cash", t.amount)
    | none => some ("cash", t.amount)
  | TxType.expense =>
    match t.cardId with
    | some cid =>
      if (m cid).isSome then some (cid, -t.amount)
      else if t.paymentMethod = some PaymentMethod.cash then some ("cash", -t.amount)
      else none
    | none =>
      if t.paymentMethod = some PaymentMethod.cash then some ("cash", -t.amount)
      else none

/-- The comparator used by the transaction cache sort is total. -/
instance : IsTotal Transaction (fun a b => b.date ≤ a.date) :=
  ⟨fun a b => Nat.le_total b.date a.date⟩

/-- The comparator used by the transaction cache sort is transitive. -/
instance : IsTrans Transaction (fun a b => b.date ≤ a.date) :=
  ⟨fun _ _ _ hab hbc => le_trans hbc hab⟩

/-! ## Shared sample data for concrete witnesses -/

/-- The empty store. -/
def emptyStore : Store :=
  { transactions := [], categories := [], cards := [], creditEntries := [],
    creditHistory := [], creditReceived := [] }

/-- A plain transaction literal used by concrete witnesses. -/
def mkSampleTx (id : String) (ty : TxType) (category : String) (amount : Int)
    (date : Nat) (pm : Option PaymentMethod) (cardId : Option String) : Transaction :=
  { id := id, type := ty, category := category, amount := amount, date := date,
    note := "", paymentMethod := pm, cardId := cardId, creditId := none,
    creditHistoryId := none, creditReceivedId := none, creditReceivedHistoryId := none }

/-- A sample card used by concrete witnesses. -/
def sampleCard : CardDetails :=
  { id := "card1", cardName := "Main", cardNumber := "4242", expiryDate := "12/30",
    cardType := "visa" }

/-- A sample credit entry row used by concrete witnesses. -/
def sampleCreditEntry : CreditEntryRow :=
  { id := "credit1", personName := "Alice", amount := 100, dueDate := 30,
    givenDate := 1, returnedAmount := 0, status := CreditStatus.active,
    initialPaymentMethod := PaymentMethod.card, initialCardId := some "card1",
    initialNote := none }

/-- Witness store for the credit-return scenario: one credit entry of 100
lent to Alice, no history yet. -/
def c1Store : Store :=
  { transactions := [], categories := [], cards := [],
    creditEntries := [sampleCreditEntry], creditHistory := [], creditReceived := [] }

/-- The store after recording a 40 cash return on the witness entry. -/
def c1Store' : Store :=
  { transactions :=
      [{ id := "t1", type := TxType.income, category := "Credit Return",
         amount := 40, date := 5, note := "Credit return from Alice",
         paymentMethod := some PaymentMethod.cash, cardId := none,
         creditId := some "credit1", creditHistoryId := some "h1",
         creditReceivedId := none, creditReceivedHistoryId := none }],
    categories := [], cards := [],
    creditEntries :=
      [{ id := "credit1", personName := "Alice", amount := 100, dueDate := 30,
         givenDate := 1, returnedAmount := 40,
         status := CreditStatus.partially_returned,
         initialPaymentMethod := PaymentMethod.card,
         initialCardId := some "card1", initialNote := none }],
    creditHistory :=
      [{ id := "h1", creditId := "credit1", date := 5, amount := 40,
         type := HistType.returned, paymentMethod := PaymentMethod.cash,
         cardId := none, note := none }],
    creditReceived := [] }

/-- The entry as observed by getCreditEntries after the witness return. -/
def c1Observed : CreditEntry :=
  { id := "credit1", personName := "Alice", amount := 100, dueDate := 30,
    givenDate := 1, returnedAmount := 40,
    status := CreditStatus.partially_returned,
    history :=
      [{ id := "h1", date := 5, amount := 40, type := HistType.returned,
         paymentMethod := PaymentMethod.cash, cardId := none, note := none }],
    initialPaymentMethod := PaymentMethod.card, initialCardId := some "card1",
    initialNote := none }

/-! ## Theorems -/

/-- C5: deleting a CreditEntry removes exactly the Transactions whose
creditId references the entry, then exactly the CreditHistoryItems
referencing the entry, then the entry itself; afterwards zero transactions
and zero history rows reference the entry's id, and the entry is gone. -/
theorem deleteCreditEntry_cascade_complete (st : Store) (cid : String) :
    (deleteCreditEntry st cid).transactions =
        st.transactions.filter (fun t => decide (¬ t.creditId = some cid))
    ∧ (deleteCreditEntry st cid).creditHistory =
        st.creditHistory.filter (fun h => decide (¬ h.creditId = cid))
    ∧ (deleteCreditEntry st cid).creditEntries =
        st.creditEntries.filter (fun e => decide (¬ e.id = cid))
    ∧ (deleteCreditEntry st cid).transactions.countP
        (fun t => decide (t.creditId = some cid)) = 0
    ∧ (deleteCreditEntry st cid).creditHistory.countP
        (fun h => decide (h.creditId = cid)) = 0
    ∧ (deleteCreditEntry st cid).creditEntries.countP
        (fun e => decide (e.id = cid)) = 0 := by
  refine ⟨rfl, rfl, rfl, ?_, ?_, ?_⟩ <;>
  · rw [List.countP_eq_zero]
    intro a ha
    have := List.of_mem_filter ha
    simpa using this

/-- C8: deleting a Category (looked up by id) removes all transactions
whose category field equals the category's name, and the category itself;
afterwards no transaction with that name and no category with that id
remains. -/
theorem deleteCategory_by_name_cascade (st : Store) (categoryId : String)
    (c : Category) (hc : getCategory st categoryId = some c) :
    (deleteCategory st categoryId).transactions.countP
        (fun t => decide (t.category = c.name)) = 0
    ∧ (deleteCategory st categoryId).categories.countP
        (fun x => decide (x.id = categoryId)) = 0 := by
  unfold deleteCategory
  rw [hc]
  constructor <;>
  · rw [List.countP_eq_zero]
    intro a ha
    have := List.of_mem_filter ha
    simpa using this

/-- C8 witness: deleting the category Food with three Food transactions
leaves no Food transaction and removes the category. -/
theorem deleteCategory_by_name_cascade_witness :
    (deleteCategory
        { transactions :=
            [mkSampleTx "t1" TxType.expense "Food" 10 1 (some PaymentMethod.cash) none,
             mkSampleTx "t2" TxType.expense "Food" 20 2 (some PaymentMethod.cash) none,
             mkSampleTx "t3" TxType.expense "Food" 30 3 (some PaymentMethod.cash) none],
          categories := [{ id := "cat1", name := "Food", type := TxType.expense }],
          cards := [], creditEntries := [], creditHistory := [], creditReceived := [] }
        "cat1").transactions.countP (fun t => decide (t.category = "Food")) = 0
    ∧ (deleteCategory
        { transactions :=
            [mkSampleTx "t1" TxType.expense "Food" 10 1 (some PaymentMethod.cash) none,
             mkSampleTx "t2" TxType.expense "Food" 20 2 (some PaymentMethod.cash) none,
             mkSampleTx "t3" TxType.expense "Food" 30 3 (some PaymentMethod.cash) none],
          categories := [{ id := "cat1", name := "Food", type := TxType.expense }],
          cards := [], creditEntries := [], creditHistory := [], creditReceived := [] }
        "cat1").categories.countP (fun x => decide (x.id = "cat1")) = 0 :=
  deleteCategory_by_name_cascade _ "cat1"
    { id := "cat1", name := "Food", type := TxType.expense } (by decide)

/-- C9: addCategory rejects with the duplicate error exactly when an
existing cached category has the same type and a case-insensitively equal
name. -/
theorem addCategory_duplicate_reject_iff (cats : List Category) (n : String)
    (ty : TxType) (newId : String) :
    addCategory cats n ty newId = Except.error "Category already exists"
      ↔ ∃ c ∈ cats, c.type = ty ∧ c.name.toLower = n.toLower := by
  unfold addCategory
  by_cases h : cats.any (fun c => decide (c.name.toLower = n.toLower ∧ c.type = ty))
  · rw [if_pos h]
    simp only [List.any_eq_true, decide_eq_true_eq] at h
    obtain ⟨c, hc, hn, hty⟩ := h
    exact iff_of_true rfl ⟨c, hc, hty, hn⟩
  · rw [if_neg h]
    constructor
    · intro hcontra
      simp at hcontra
    · rintro ⟨c, hc, hty, hn⟩
      exact absurd (List.any_eq_true.mpr ⟨c, hc, by simp [hn, hty]⟩) h

/-- C3: attempting to delete a card referenced by a transaction's cardId
or a credit entry's initialCardId (with both pre-check queries
succeeding) rejects with an error and produces no new store state. -/
theorem deleteCard_in_use_rejects (st : Store) (cardId : String)
    (hin : (∃ t ∈ st.transactions, t.cardId = some cardId)
         ∨ ∃ e ∈ st.creditEntries, e.initialCardId = some cardId) :
    deleteCard st cardId false false =
      Except.error "Cannot delete card. It is linked to one or more transactions." := by
  unfold deleteCard isCardInUse
  by_cases htx : st.transactions.any (fun t => decide (t.cardId = some cardId))
  · simp [htx]
  · have hcr : ∃ e ∈ st.creditEntries, e.initialCardId = some cardId := by
      rcases hin with h | h
      · exact absurd (List.any_eq_true.mpr
          (let ⟨t, ht, he⟩ := h; ⟨t, ht, by simp [he]⟩)) htx
      · exact h
    obtain ⟨e, he, hce⟩ := hcr
    have hne : st.creditEntries.filter (fun x => decide (x.initialCardId = some cardId)) ≠ [] := by
      intro hnil
      have : e ∈ st.creditEntries.filter (fun x => decide (x.initialCardId = some cardId)) :=
        List.mem_filter.mpr ⟨he, by simp [hce]⟩
      rw [hnil] at this
      exact absurd this (List.not_mem_nil e)
    simp only [htx, if_false, Bool.false_eq_true]
    cases hf : st.creditEntries.filter (fun x => decide (x.initialCardId = some cardId)) with
    | nil => exact absurd hf hne
    | cons a l => simp [hf]

/-- C3 witness: a card referenced by a credit entry's initialCardId cannot
be deleted. -/
theorem deleteCard_in_use_rejects_witness :
    deleteCard
        { transactions := [], categories := [], cards := [sampleCard],
          creditEntries := [sampleCreditEntry], creditHistory := [],
          creditReceived := [] }
        "card1" false false =
      Except.error "Cannot delete card. It is linked to one or more transactions." :=
  deleteCard_in_use_rejects _ "card1" (by decide)

/-- C4: the card delete guard fails open, contradicting the spec's
fail-closed requirement: on a store whose only credit entry references
card1 (so the same delete with both queries succeeding is rejected), a
failure of the credit_entries pre-check query is swallowed and the delete
proceeds, removing the card row. -/
theorem deleteCard_failOpen_eval :
    deleteCard
        { transactions := [], categories := [], cards := [sampleCard],
          creditEntries := [sampleCreditEntry], creditHistory := [],
          creditReceived := [] }
        "card1" false true =
      Except.ok
        { transactions := [], categories := [], cards := [],
          creditEntries := [sampleCreditEntry], creditHistory := [],
          creditReceived := [] }
    ∧ deleteCard
        { transactions := [], categories := [], cards := [sampleCard],
          creditEntries := [sampleCreditEntry], creditHistory := [],
          creditReceived := [] }
        "card1" false false =
      Except.error "Cannot delete card. It is linked to one or more transactions." := by
  constructor <;> rfl

/-- C6 (amended): creating a credit-lent entry persists the expense
transaction with category Credit, the entry's amount, date, note, payment
method, card id and both back-references; creating a credit-received
entry persists the symmetric income transaction with category Credit
Received carrying the same amount, date, note and card id and the entry
back-reference, but with no payment method and no history back-reference. -/
theorem createCredit_mirror_transactions (st : Store) (pn : String) (amt : Int)
    (dd rd : Nat) (pm : PaymentMethod) (cardId note : Option String) (now : Nat)
    (eid hid tid eid2 tid2 : String) :
    (createCreditEntry st pn amt dd pm cardId note now eid hid tid).transactions =
      st.transactions ++
        [{ id := tid, type := TxType.expense, category := "Credit",
           amount := amt, date := now, note := "Credit given to " ++ pn,
           paymentMethod := some pm, cardId := cardId, creditId := some eid,
           creditHistoryId := some hid, creditReceivedId := none,
           creditReceivedHistoryId := none }]
    ∧ (createCreditReceivedEntry st pn amt rd pm cardId note now eid2 tid2).transactions =
      st.transactions ++
        [{ id := tid2, type := TxType.income, category := "Credit Received",
           amount := amt, date := now, note := "Credit received from " ++ pn,
           paymentMethod := none, cardId := cardId, creditId := none,
           creditHistoryId := none, creditReceivedId := some eid2,
           creditReceivedHistoryId := none }] :=
  ⟨rfl, rfl⟩

/-- C6 counterexample: a credit-received entry created with payment method
cash persists a transaction that does not carry that payment method (the
column is left null), refuting the claim that the mirrored transaction
carries the entry's payment method. -/
theorem createCreditReceived_paymentMethod_counterexample :
    ∃ t, (createCreditReceivedEntry emptyStore "Bob" 50 10 PaymentMethod.cash
            none none 5 "e1" "t1").transactions = [t]
      ∧ ¬ t.paymentMethod = some PaymentMethod.cash :=
  ⟨{ id := "t1", type := TxType.income, category := "Credit Received",
     amount := 50, date := 5, note := "Credit received from Bob",
     paymentMethod := none, cardId := none, creditId := none,
     creditHistoryId := none, creditReceivedId := some "e1",
     creditReceivedHistoryId := none }, rfl, by decide⟩

/-- C10: the cache steps of addTransaction and updateTransaction keep the
cached transaction list sorted by date descending: from a date-descending
list, inserting the created transaction or replacing the updated one and
re-sorting yields a date-descending list again. -/
theorem transactionCache_sorted_desc (txs : List Transaction) (t u : Transaction)
    (_hs : List.Sorted (fun a b => b.date ≤ a.date) txs) :
    List.Sorted (fun a b => b.date ≤ a.date) (addTransactionCache txs t)
    ∧ List.Sorted (fun a b => b.date ≤ a.date) (updateTransactionCache txs u) :=
  ⟨List.sorted_insertionSort _ _, List.sorted_insertionSort _ _⟩

/-- C10 witness: on a concrete date-descending cache, both cache steps
yield date-descending lists. -/
theorem transactionCache_sorted_desc_witness :
    List.Sorted (fun a b => b.date ≤ a.date)
      (addTransactionCache
        [mkSampleTx "t1" TxType.income "Salary" 100 9 none none,
         mkSampleTx "t2" TxType.expense "Food" 10 4 (some PaymentMethod.cash) none]
        (mkSampleTx "t3" TxType.expense "Food" 5 7 (some PaymentMethod.cash) none))
    ∧ List.Sorted (fun a b => b.date ≤ a.date)
      (updateTransactionCache
        [mkSampleTx "t1" TxType.income "Salary" 100 9 none none,
         mkSampleTx "t2" TxType.expense "Food" 10 4 (some PaymentMethod.cash) none]
        (mkSampleTx "t2" TxType.expense "Food" 10 12 (some PaymentMethod.cash) none)) :=
  transactionCache_sorted_desc _ _ _ (by decide)

/-! ## Balance derivation lemmas -/

/-- updSub is updAdd of the negated amount. -/
theorem updSub_eq_updAdd (m : String → Option Int) (k : String) (a : Int) :
    updSub m k a = updAdd m k (-a) := by
  funext j
  unfold updSub updAdd
  by_cases h : j = k <;> simp [h, sub_eq_add_neg]

/-- updAdd only changes values, never which keys are present. -/
theorem updAdd_isSome (m : String → Option Int) (k : String) (a : Int) (j : String) :
    ((updAdd m k a) j).isSome = (m j).isSome := by
  unfold updAdd
  by_cases h : j = k <;> simp [h]

/-- applyTx never changes which keys are present in the balance map. -/
theorem applyTx_isSome (m : String → Option Int) (t : Transaction) (j : String) :
    ((applyTx m t) j).isSome = (m j).isSome := by
  obtain ⟨i, ty, cat, amt, d, no, pm, cardId, c1, c2, c3, c4⟩ := t
  cases ty <;> cases cardId <;>
    simp only [applyTx, updSub_eq_updAdd] <;>
    (try split_ifs) <;>
    simp [updAdd_isSome]

/-- applyTx is the update prescribed by txTarget. -/
theorem applyTx_eq_target (m : String → Option Int) (t : Transaction) :
    applyTx m t =
      (match txTarget m t with
       | none => m
       | some (k, a) => updAdd m k a) := by
  obtain ⟨i, ty, cat, amt, d, no, pm, cardId, c1, c2, c3, c4⟩ := t
  cases ty <;> cases cardId <;>
    simp only [applyTx, txTarget, updSub_eq_updAdd] <;>
    (try split_ifs) <;>
    rfl

/-- txTarget only depends on which keys are present in the map. -/
theorem txTarget_congr (m₁ m₂ : String → Option Int) (t : Transaction)
    (h : ∀ j, (m₁ j).isSome = (m₂ j).isSome) :
    txTarget m₁ t = txTarget m₂ t := by
  obtain ⟨i, ty, cat, amt, d, no, pm, cardId, c1, c2, c3, c4⟩ := t
  cases ty <;> cases cardId <;> simp only [txTarget] <;> rw [h]

/-- Two pointwise additions on a balance map commute. -/
theorem updAdd_comm (m : String → Option Int) (k₁ k₂ : String) (a₁ a₂ : Int) :
    updAdd (updAdd m k₁ a₁) k₂ a₂ = updAdd (updAdd m k₂ a₂) k₁ a₁ := by
  funext j
  unfold updAdd
  by_cases h12 : k₁ = k₂
  · subst h12
    by_cases hj : j = k₁
    · simp only [hj, if_pos rfl, Option.map_map]
      cases m k₁ with
      | none => rfl
      | some v => simp [Function.comp, add_right_comm]
    · simp [hj]
  · by_cases hj1 : j = k₁
    · subst hj1
      simp [h12, Ne.symm h12]
    · by_cases hj2 : j = k₂
      · subst hj2
        simp [hj1, h12, Ne.symm h12]
      · simp [hj1, hj2]

/-- The balance fold step is right-commutative: applying two transactions
in either order gives the same map. -/
theorem applyTx_right_comm (m : String → Option Int) (t₁ t₂ : Transaction) :
    applyTx (applyTx m t₁) t₂ = applyTx (applyTx m t₂) t₁ := by
  have h1 : txTarget (applyTx m t₁) t₂ = txTarget m t₂ :=
    txTarget_congr _ _ _ (fun j => applyTx_isSome m t₁ j)
  have h2 : txTarget (applyTx m t₂) t₁ = txTarget m t₁ :=
    txTarget_congr _ _ _ (fun j => applyTx_isSome m t₂ j)
  rw [applyTx_eq_target (applyTx m t₁) t₂, h1, applyTx_eq_target (applyTx m t₂) t₁, h2,
      applyTx_eq_target m t₁, applyTx_eq_target m t₂]
  rcases e₁ : txTarget m t₁ with _ | ⟨k₁, a₁⟩ <;>
    rcases e₂ : txTarget m t₂ with _ | ⟨k₂, a₂⟩
  · rfl
  · rfl
  · rfl
  · exact updAdd_comm m k₁ k₂ a₁ a₂

/-- C2: the balances mapping is invariant under permutation of the
transaction list. -/
theorem balancesMap_perm_invariant (cards : List CardDetails)
    {l₁ l₂ : List Transaction} (h : l₁.Perm l₂) :
    balancesMap cards l₁ = balancesMap cards l₂ := by
  unfold balancesMap
  haveI : RightCommutative applyTx := ⟨fun b a₁ a₂ => applyTx_right_comm b a₁ a₂⟩
  exact h.foldl_eq _

/-- C2 witness: swapping two concrete transactions leaves the balances
mapping unchanged. -/
theorem balancesMap_perm_invariant_witness :
    balancesMap [sampleCard]
      [mkSampleTx "t1" TxType.income "Salary" 50 1 none (some "card1"),
       mkSampleTx "t2" TxType.expense "Food" 20 2 (some PaymentMethod.cash) none] =
    balancesMap [sampleCard]
      [mkSampleTx "t2" TxType.expense "Food" 20 2 (some PaymentMethod.cash) none,
       mkSampleTx "t1" TxType.income "Salary" 50 1 none (some "card1")] :=
  balancesMap_perm_invariant [sampleCard]
    (List.Perm.swap
      (mkSampleTx "t2" TxType.expense "Food" 20 2 (some PaymentMethod.cash) none)
      (mkSampleTx "t1" TxType.income "Salary" 50 1 none (some "card1")) [])

/-- The initial balance fold, from an arbitrary start map. -/
theorem initBalances_foldl (cards : List CardDetails) (m : String → Option Int)
    (k : String) :
    (cards.foldl (fun m c => fun j => if j = c.id then some 0 else m j) m) k
      = if ∃ c ∈ cards, c.id = k then some 0 else m k := by
  induction cards generalizing m with
  | nil => simp
  | cons c cs ih =>
    simp only [List.foldl_cons]
    rw [ih]
    by_cases h : ∃ x ∈ cs, x.id = k
    · have hcc : ∃ x ∈ c :: cs, x.id = k :=
        let ⟨x, hx, e⟩ := h
        ⟨x, List.mem_cons_of_mem _ hx, e⟩
      simp [h, hcc]
    · have hiff : (∃ x ∈ c :: cs, x.id = k) ↔ c.id = k := by
        constructor
        · rintro ⟨x, hx, e⟩
          rcases List.mem_cons.mp hx with rfl | hx'
          · exact e
          · exact absurd ⟨x, hx', e⟩ h
        · intro e
          exact ⟨c, List.mem_cons_self c cs, e⟩
      rw [if_neg h]
      simp only [hiff]
      by_cases hk : k = c.id
      · rw [if_pos hk, if_pos hk.symm]
      · rw [if_neg hk, if_neg (Ne.symm hk)]

/-- C7: the balances projection initializes 0 for cash and for exactly the
known card ids; an income transaction credits its card bucket when the
card id is set and known, else credits cash; an expense debits its card
bucket when known, else debits cash only under payment method cash; an
expense with an unresolvable card reference and no cash fallback leaves
the map untouched; and balancesMap is the fold of these steps from the
initial map. -/
theorem balances_semantics :
    (∀ (cards : List CardDetails) (k : String),
        initBalances cards k = some 0 ↔ (k = "cash" ∨ ∃ c ∈ cards, c.id = k))
    ∧ (∀ (m : String → Option Int) (t : Transaction) (cid : String),
        t.type = TxType.income → t.cardId = some cid → (m cid).isSome →
          applyTx m t = updAdd m cid t.amount)
    ∧ (∀ (m : String → Option Int) (t : Transaction),
        t.type = TxType.income →
          (∀ cid, t.cardId = some cid → m cid = none) →
          applyTx m t = updAdd m "cash" t.amount)
    ∧ (∀ (m : String → Option Int) (t : Transaction) (cid : String),
        t.type = TxType.expense → t.cardId = some cid → (m cid).isSome →
          applyTx m t = updSub m cid t.amount)
    ∧ (∀ (m : String → Option Int) (t : Transaction),
        t.type = TxType.expense →
          (∀ cid, t.cardId = some cid → m cid = none) →
          t.paymentMethod = some PaymentMethod.cash →
          applyTx m t = updSub m "cash" t.amount)
    ∧ (∀ (m : String → Option Int) (t : Transaction),
        t.type = TxType.expense →
          (∀ cid, t.cardId = some cid → m cid = none) →
          ¬ t.paymentMethod = some PaymentMethod.cash →
          applyTx m t = m)
    ∧ (∀ (cards : List CardDetails) (txs : List Transaction),
        balancesMap cards txs = txs.foldl applyTx (initBalances cards)) := by
  refine ⟨?_, ?_, ?_, ?_, ?_, ?_, fun _ _ => rfl⟩
  · intro cards k
    unfold initBalances
    rw [initBalances_foldl]
    by_cases h : ∃ c ∈ cards, c.id = k
    · simp [h]
    · by_cases hk : k = "cash" <;> simp [h, hk]
  · intro m t cid hty hcid hsome
    obtain ⟨i, ty, cat, amt, d, no, pm, cardId, c1, c2, c3, c4⟩ := t
    simp only at hty hcid
    subst hty
    subst hcid
    simp [applyTx, hsome]
  · intro m t hty hnone
    obtain ⟨i, ty, cat, amt, d, no, pm, cardId, c1, c2, c3, c4⟩ := t
    simp only at hty hnone
    subst hty
    cases cardId with
    | none => rfl
    | some cid => simp [applyTx, hnone cid rfl]
  · intro m t cid hty hcid hsome
    obtain ⟨i, ty, cat, amt, d, no, pm, cardId, c1, c2, c3, c4⟩ := t
    simp only at hty hcid
    subst hty
    subst hcid
    simp [applyTx, hsome]
  · intro m t hty hnone hpm
    obtain ⟨i, ty, cat, amt, d, no, pm, cardId, c1, c2, c3, c4⟩ := t
    simp only at hty hnone hpm
    subst hty
    cases cardId with
    | none => simp [applyTx, hpm]
    | some cid => simp [applyTx, hnone cid rfl, hpm]
  · intro m t hty hnone hpm
    obtain ⟨i, ty, cat, amt, d, no, pm, cardId, c1, c2, c3, c4⟩ := t
    simp only at hty hnone hpm
    subst hty
    cases cardId with
    | none => simp [applyTx, hpm]
    | some cid => simp [applyTx, hnone cid rfl, hpm]

/-- C7 witness: the clauses of balances_semantics at concrete inputs: the
initial map of one card, an income to the known card, an income with no
card, an expense on the known card, a cash expense, and an expense with a
stale card id and no cash fallback. -/
theorem balances_semantics_witness :
    (initBalances [sampleCard] "cash" = some 0)
    ∧ applyTx (initBalances [sampleCard])
        (mkSampleTx "t1" TxType.income "Salary" 50 1 none (some "card1")) =
        updAdd (initBalances [sampleCard]) "card1" 50
    ∧ applyTx (initBalances [sampleCard])
        (mkSampleTx "t2" TxType.income "Salary" 100 2 none none) =
        updAdd (initBalances [sampleCard]) "cash" 100
    ∧ applyTx (initBalances [sampleCard])
        (mkSampleTx "t3" TxType.expense "Food" 20 3 (some PaymentMethod.card) (some "card1")) =
        updSub (initBalances [sampleCard]) "card1" 20
    ∧ applyTx (initBalances [sampleCard])
        (mkSampleTx "t4" TxType.expense "Food" 20 4 (some PaymentMethod.cash) none) =
        updSub (initBalances [sampleCard]) "cash" 20
    ∧ applyTx (initBalances [sampleCard])
        (mkSampleTx "t5" TxType.expense "Food" 20 5 none (some "ghost")) =
        initBalances [sampleCard] :=
  ⟨(balances_semantics.1 [sampleCard] "cash").mpr (Or.inl rfl),
   balances_semantics.2.1 (initBalances [sampleCard]) _ "card1" rfl rfl (by decide),
   balances_semantics.2.2.1 (initBalances [sampleCard]) _ rfl
     (fun cid h => Option.noConfusion h),
   balances_semantics.2.2.2.1 (initBalances [sampleCard]) _ "card1" rfl rfl (by decide),
   balances_semantics.2.2.2.2.1 (initBalances [sampleCard]) _ rfl
     (fun cid h => Option.noConfusion h) rfl,
   balances_semantics.2.2.2.2.2.1 (initBalances [sampleCard]) _ rfl
     (by intro cid h
         have hg : cid = "ghost" := by
           injection h with h2
           exact h2.symm
         subst hg
         decide)
     (by decide)⟩

/-- The returned-type amounts of an entry's history as read back by
getCreditHistory sum to returnedSum over the credit_history table. -/
theorem history_returned_sum (st : Store) (cid : String) :
    (((getCreditHistory st cid).filter
        (fun h => decide (h.type = HistType.returned))).map (fun h => h.amount)).sum
      = returnedSum st.creditHistory cid := by
  unfold getCreditHistory returnedSum
  rw [List.filter_map, List.map_map]
  rw [(((List.perm_insertionSort (fun a b => b.date ≤ a.date)
      (st.creditHistory.filter (histOf cid))).filter _).map _).sum_eq]
  have hpred : ((fun h => decide (h.type = HistType.returned)) ∘ toHistoryItem)
      = (fun h : CreditHistoryRow => decide (h.type = HistType.returned)) := rfl
  have hamt : ((fun h : CreditHistoryItem => h.amount) ∘ toHistoryItem)
      = (fun h : CreditHistoryRow => h.amount) := rfl
  rw [hpred, hamt, List.filter_filter]
  have hcomb : (fun a : CreditHistoryRow =>
        decide (a.type = HistType.returned) && histOf cid a)
      = (fun h : CreditHistoryRow => decide (h.creditId = cid ∧ h.type = HistType.returned)) := by
    funext h
    unfold histOf
    rw [Bool.decide_and]
    exact Bool.and_comm _ _
  rw [hcomb]

/-- C1: after addCreditReturn succeeds, the entry observed on the next
getCreditEntries read has returnedAmount equal to the sum of its
returned-type history amounts, and its status is fully_returned iff
returnedAmount is at least amount, partially_returned iff returnedAmount
is strictly between 0 and amount, and active iff returnedAmount is 0. -/
theorem addCreditReturn_derived_status_correct
    (st : Store) (cid : String) (amt : Int) (pm : PaymentMethod)
    (cardId note : Option String) (now : Nat) (hid tid : String) (st' : Store)
    (hok : addCreditReturn st cid amt pm cardId note now hid tid = Except.ok st')
    (hamt : 0 < amt)
    (hpos : ∀ h ∈ st.creditHistory,
        h.creditId = cid → h.type = HistType.returned → 0 ≤ h.amount)
    (e' : CreditEntry) (he' : e' ∈ getCreditEntries st') (hide : e'.id = cid) :
    (e'.returnedAmount =
        ((e'.history.filter (fun h => decide (h.type = HistType.returned))).map
          (fun h => h.amount)).sum)
    ∧ (e'.status = CreditStatus.fully_returned ↔ e'.amount ≤ e'.returnedAmount)
    ∧ (e'.status = CreditStatus.partially_returned ↔
        0 < e'.returnedAmount ∧ e'.returnedAmount < e'.amount)
    ∧ (e'.status = CreditStatus.active ↔ e'.returnedAmount = 0) := by
  simp only [addCreditReturn] at hok
  cases hfind : st.creditEntries.find? (fun e => decide (e.id = cid)) with
  | none =>
    rw [hfind] at hok
    simp at hok
  | some entry =>
    rw [hfind] at hok
    injection hok with hok
    subst hok
    set hrow : CreditHistoryRow :=
      { id := hid, creditId := cid, date := now, amount := amt,
        type := HistType.returned, paymentMethod := pm,
        cardId := cardId, note := note } with hhrow
    set hist1 := st.creditHistory ++ [hrow] with hhist1
    -- the returned sum after the insert is the old sum plus the new amount
    have hsum1 : returnedSum hist1 cid = returnedSum st.creditHistory cid + amt := by
      unfold returnedSum
      rw [hhist1, List.filter_append, List.map_append, List.sum_append]
      simp [hhrow]
    have hold : 0 ≤ returnedSum st.creditHistory cid := by
      unfold returnedSum
      apply List.sum_nonneg
      intro x hx
      obtain ⟨h, hh, rfl⟩ := List.mem_map.mp hx
      obtain ⟨hmem, hp⟩ := List.mem_filter.mp hh
      rw [decide_eq_true_eq] at hp
      exact hpos h hmem hp.1 hp.2
    have hra : 0 < returnedSum hist1 cid := by
      rw [hsum1]
      omega
    -- identify the observed entry
    simp only [getCreditEntries] at he'
    obtain ⟨r, hr, he⟩ := List.mem_map.mp he'
    subst he
    simp only at hide
    have hrm : r ∈ (st.creditEntries.map
        (fun e => if e.id = cid then recomputeEntry hist1 e else e)) :=
      (List.perm_insertionSort
        (fun a b : CreditEntryRow => b.givenDate ≤ a.givenDate) _).mem_iff.mp hr
    obtain ⟨e0, he0, hge⟩ := List.mem_map.mp hrm
    by_cases h0 : e0.id = cid
    · rw [if_pos h0] at hge
      subst hge
      simp only [recomputeEntry] at hide ⊢
      rw [h0]
      refine ⟨?_, ?_, ?_, ?_⟩
      · rw [history_returned_sum]
      · by_cases hle : e0.amount ≤ returnedSum hist1 cid
        · simp [hle]
        · simp [hle, hra]
          try omega
      · by_cases hle : e0.amount ≤ returnedSum hist1 cid
        · simp [hle]
          try omega
        · simp [hle, hra]
          try omega
      · by_cases hle : e0.amount ≤ returnedSum hist1 cid
        · simp [hle]
          try omega
        · simp [hle, hra]
          try omega
    · rw [if_neg h0] at hge
      subst hge
      exact absurd hide h0

/-- C1 witness: recording a 40 cash return on the 100 entry yields an
observed entry with returnedAmount 40 equal to its returned history sum
and status partially_returned, satisfying all three status
characterisations. -/
theorem addCreditReturn_derived_status_witness :
    (c1Observed.returnedAmount =
        ((c1Observed.history.filter (fun h => decide (h.type = HistType.returned))).map
          (fun h => h.amount)).sum)
    ∧ (c1Observed.status = CreditStatus.fully_returned ↔
        c1Observed.amount ≤ c1Observed.returnedAmount)
    ∧ (c1Observed.status = CreditStatus.partially_returned ↔
        0 < c1Observed.returnedAmount ∧ c1Observed.returnedAmount < c1Observed.amount)
    ∧ (c1Observed.status = CreditStatus.active ↔ c1Observed.returnedAmount = 0) :=
  addCreditReturn_derived_status_correct c1Store "credit1" 40 PaymentMethod.cash
    none none 5 "h1" "t1" c1Store' rfl (by decide) (by decide)
    c1Observed (by decide) rfl

end MyMoney
